import Mathlib

set_option maxRecDepth 40000

/-!
Verification of the free-game aggregation pipeline in `app.py`
(deal identity, upsert store, retention sweep, source normalizers,
Telegram publisher, ingestion job).

Machine-width arithmetic is modelled on `Nat` with explicit `% 2^32`
reductions.  External effects (HTTP responses, the wall clock, the
`datetime.fromisoformat` library parser, `random.shuffle`, the message
send) are passed in explicitly as values or function parameters, so all
definitions are executable.
-/

namespace FreeRG

/-! ## SHA-256 over byte lists (for `deal_id`)

`deal_id` in `app.py` is `hashlib.sha256(base.encode("utf-8")).hexdigest()[:24]`.
We implement SHA-256 on `List Nat` bytes, with 32-bit words kept below `2^32`. -/

def M32 : Nat := 4294967296

/-- Right rotation of a 32-bit word. -/
def rotr32 (n x : Nat) : Nat := ((x >>> n) ||| (x <<< (32 - n))) % M32

def bigSigma0 (x : Nat) : Nat := rotr32 2 x ^^^ rotr32 13 x ^^^ rotr32 22 x

def bigSigma1 (x : Nat) : Nat := rotr32 6 x ^^^ rotr32 11 x ^^^ rotr32 25 x

def smallSigma0 (x : Nat) : Nat := rotr32 7 x ^^^ rotr32 18 x ^^^ (x >>> 3)

def smallSigma1 (x : Nat) : Nat := rotr32 17 x ^^^ rotr32 19 x ^^^ (x >>> 10)

def chFun (x y z : Nat) : Nat := (x &&& y) ^^^ ((x ^^^ 4294967295) &&& z)

def majFun (x y z : Nat) : Nat := (x &&& y) ^^^ (x &&& z) ^^^ (y &&& z)

def shaK : List Nat :=
  [1116352408, 1899447441, 3049323471, 3921009573, 961987163, 1508970993,
   2453635748, 2870763221, 3624381080, 310598401, 607225278, 1426881987,
   1925078388, 2162078206, 2614888103, 3248222580, 3835390401, 4022224774,
   264347078, 604807628, 770255983, 1249150122, 1555081692, 1996064986,
   2554220882, 2821834349, 2952996808, 3210313671, 3336571891, 3584528711,
   113926993, 338241895, 666307205, 773529912, 1294757372, 1396182291,
   1695183700, 1986661051, 2177026350, 2456956037, 2730485921, 2820302411,
   3259730800, 3345764771, 3516065817, 3600352804, 4094571909, 275423344,
   430227734, 506948616, 659060556, 883997877, 958139571, 1322822218,
   1537002063, 1747873779, 1955562222, 2024104815, 2227730452, 2361852424,
   2428436474, 2756734187, 3204031479, 3329325298]

/-- Eight 32-bit working words of the compression function. -/
structure Sha8 where
  a : Nat
  b : Nat
  c : Nat
  d : Nat
  e : Nat
  f : Nat
  g : Nat
  h : Nat

def shaH0 : Sha8 :=
  ⟨1779033703, 3144134277, 1013904242, 2773480762,
   1359893119, 2600822924, 528734635, 1541459225⟩

/-- Big-endian packing of bytes into 32-bit words, 4 bytes per word. -/
def words16 : List Nat → List Nat
  | b0 :: b1 :: b2 :: b3 :: rest =>
      (b0 * 16777216 + b1 * 65536 + b2 * 256 + b3) :: words16 rest
  | _ => []

/-- Extend the 16 block words to 64; `wrev` is the words so far, newest first. -/
def extendW : Nat → List Nat → List Nat
  | 0, wrev => wrev
  | k + 1, wrev =>
      let g := fun j => wrev.getD j 0
      let nw := (smallSigma1 (g 1) + g 6 + smallSigma0 (g 14) + g 15) % M32
      extendW k (nw :: wrev)

def schedule (block : List Nat) : List Nat :=
  (extendW 48 (words16 block).reverse).reverse

def shaRound (st : Sha8) (kw : Nat × Nat) : Sha8 :=
  let t1 := (st.h + bigSigma1 st.e + chFun st.e st.f st.g + kw.1 + kw.2) % M32
  let t2 := (bigSigma0 st.a + majFun st.a st.b st.c) % M32
  ⟨(t1 + t2) % M32, st.a, st.b, st.c, (st.d + t1) % M32, st.e, st.f, st.g⟩

def shaCompress (hs : Sha8) (block : List Nat) : Sha8 :=
  let w := schedule block
  let st := (List.zip shaK w).foldl shaRound hs
  ⟨(hs.a + st.a) % M32, (hs.b + st.b) % M32, (hs.c + st.c) % M32,
   (hs.d + st.d) % M32, (hs.e + st.e) % M32, (hs.f + st.f) % M32,
   (hs.g + st.g) % M32, (hs.h + st.h) % M32⟩

/-- Split the padded byte list into 64-byte blocks; `fuel` is the block count. -/
def toBlocks : Nat → List Nat → List (List Nat)
  | 0, _ => []
  | fuel + 1, bs => bs.take 64 :: toBlocks fuel (bs.drop 64)

def sha256words (msg : List Nat) : Sha8 :=
  let L := msg.length
  let padLen := (119 - L % 64) % 64
  let bitLen := 8 * L
  let lenBytes := (List.range 8).map (fun j => (bitLen >>> (8 * (7 - j))) % 256)
  let padded := msg ++ 128 :: List.replicate padLen 0 ++ lenBytes
  (toBlocks (padded.length / 64) padded).foldl shaCompress shaH0

def hexChar (n : Nat) : Char :=
  if n < 10 then Char.ofNat (48 + n) else Char.ofNat (87 + n)

def wordHex (w : Nat) : List Char :=
  (List.range 8).map (fun j => hexChar ((w >>> (4 * (7 - j))) % 16))

/-- UTF-8 encoding of one character as bytes. -/
def utf8Bytes (c : Char) : List Nat :=
  let n := c.toNat
  if n < 128 then [n]
  else if n < 2048 then [192 + n / 64, 128 + n % 64]
  else if n < 65536 then [224 + n / 4096, 128 + (n / 64) % 64, 128 + n % 64]
  else [240 + n / 262144, 128 + (n / 4096) % 64, 128 + (n / 64) % 64, 128 + n % 64]

def strBytes (s : String) : List Nat :=
  s.data.foldr (fun c acc => utf8Bytes c ++ acc) []

/-- Python `hashlib.sha256(s.encode("utf-8")).hexdigest()`. -/
def sha256hex (s : String) : String :=
  let hs := sha256words (strBytes s)
  ⟨wordHex hs.a ++ wordHex hs.b ++ wordHex hs.c ++ wordHex hs.d ++
   wordHex hs.e ++ wordHex hs.f ++ wordHex hs.g ++ wordHex hs.h⟩

/-- The `app.py` function `deal_id`: builds `base = f"{store}|{url}"` — the `external_id`
argument is accepted but never used — and returns the first 24 hex digits of
the SHA-256 of `base`. -/
def deal_id (store : String) (external_id : String) (url : String) : String :=
  let base := store ++ "|" ++ url
  (sha256hex base).take 24

/-! ## Data model

`DealCandidate` is the dictionary a normalizer produces; a missing key and a
key stored with Python `None` are both modelled as `none` (none of our
producers distinguishes them).  `DealRow` is one row of the `deals` table
(`id TEXT PRIMARY KEY`, `posted` default 0). -/

structure Candidate where
  store : Option String := none
  external_id : Option String := none
  kind : Option String := none
  title : Option String := none
  url : Option String := none
  image_url : Option String := none
  source : Option String := none
  starts_at : Option String := none
  ends_at : Option String := none
  discount_pct : Option Int := none
  price_old : Option Int := none
  price_new : Option Int := none
  currency : Option String := none
deriving DecidableEq, Repr

structure DealRow where
  id : String
  store : String
  external_id : String
  kind : String
  title : String
  url : String
  image_url : Option String
  source : String
  starts_at : Option String
  ends_at : Option String
  discount_pct : Option Int
  price_old : Option Int
  price_new : Option Int
  currency : Option String
  posted : Bool
  created_at : String
deriving DecidableEq, Repr

/-- The `deals` table, as the list of its rows. -/
abbrev DB : Type := List DealRow

/-- Python `x or y` on an optional string, where `None` and `""` are falsy. -/
def pyOrStr (a : Option String) (b : String) : String :=
  match a with
  | some s => if s = "" then b else s
  | none => b

/-- Python `a or b` where both operands stay optional. -/
def pyOrOpt (a b : Option String) : Option String :=
  match a with
  | some s => if s = "" then b else some s
  | none => b

/-! ### Character-level string primitives

Python's `str` operations, implemented by structural recursion on the
character list so that every definition evaluates. -/

def listStartsWith : List Char → List Char → Bool
  | [], _ => true
  | _ :: _, [] => false
  | p :: ps, c :: cs => p == c && listStartsWith ps cs

/-- Python `s.startswith(p)`. -/
def pyStartsWith (s p : String) : Bool := listStartsWith p.data s.data

/-- Python `s.endswith(p)`. -/
def pyEndsWith (s p : String) : Bool := listStartsWith p.data.reverse s.data.reverse

/-- Python `ch in s` for a single character. -/
def pyHasChar (s : String) (c : Char) : Bool := s.data.contains c

/-- Non-overlapping left-to-right split; `sep` must be non-empty (as in every
call site), `fuel` bounds the recursion by the input length. -/
def splitGo (sep : List Char) : Nat → List Char → List Char → List (List Char)
  | _, [], acc => [acc.reverse]
  | 0, l, acc => [acc.reverse ++ l]
  | fuel + 1, c :: rest, acc =>
      if listStartsWith sep (c :: rest) then
        acc.reverse :: splitGo sep fuel (rest.drop (sep.length - 1)) []
      else splitGo sep fuel rest (c :: acc)

/-- Python `s.split(sep)` for a non-empty separator. -/
def pySplit (s sep : String) : List String :=
  (splitGo sep.data s.data.length s.data []).map (fun l => ⟨l⟩)

def replaceGo (pat rep : List Char) : Nat → List Char → List Char
  | _, [] => []
  | 0, l => l
  | fuel + 1, c :: rest =>
      if listStartsWith pat (c :: rest) then
        rep ++ replaceGo pat rep fuel (rest.drop (pat.length - 1))
      else c :: replaceGo pat rep fuel rest

/-- Python `s.replace(pat, rep)` (all occurrences, non-empty pattern). -/
def pyReplace (s pat rep : String) : String :=
  ⟨replaceGo pat.data rep.data s.data.length s.data⟩

/-- Python `s.strip()` (ASCII whitespace suffices for the data at hand). -/
def pyStrip (s : String) : String :=
  let l := s.data.dropWhile Char.isWhitespace
  ⟨(l.reverse.dropWhile Char.isWhitespace).reverse⟩

/-- Python `s.upper()`. -/
def pyUpper (s : String) : String := ⟨s.data.map Char.toUpper⟩

def listLtChar : List Char → List Char → Bool
  | [], [] => false
  | [], _ :: _ => true
  | _ :: _, [] => false
  | a :: as, b :: bs =>
      if a.toNat < b.toNat then true
      else if b.toNat < a.toNat then false
      else listLtChar as bs

/-- Lexicographic text comparison by code point (the order SQLite's default
BINARY collation gives on these UTF-8 strings). -/
def strLt (a b : String) : Bool := listLtChar a.data b.data

/-- The row inserted by `save_deals` for candidate `d` (with `posted = 0` and
`created_at = now`). -/
def mkRow (now : String) (d : Candidate) (did : String) : DealRow :=
  { id := did
    store := pyOrStr d.store ""
    external_id := pyOrStr d.external_id ""
    kind := d.kind.getD ""
    title := d.title.getD ""
    url := pyOrStr d.url ""
    image_url := d.image_url
    source := d.source.getD ""
    starts_at := d.starts_at
    ends_at := d.ends_at
    discount_pct := d.discount_pct
    price_old := d.price_old
    price_new := d.price_new
    currency := d.currency
    posted := false
    created_at := now }

/-- The `app.py` function `save_deals`: for each candidate, skip it when its URL is falsy,
otherwise `INSERT OR IGNORE` a fresh row keyed by
`deal_id(store, external_id, url)` (ignored when a row with that primary key
already exists) and count the rows actually inserted. -/
def save_deals (now : String) : List Candidate → DB → DB × Nat
  | [], db => (db, 0)
  | d :: rest, db =>
      if pyOrStr d.url "" = "" then save_deals now rest db
      else if db.any (fun r => r.id ==
          deal_id (pyOrStr d.store "") (pyOrStr d.external_id "") (pyOrStr d.url "")) then
        save_deals now rest db
      else
        let res := save_deals now rest
          (db ++ [mkRow now d
            (deal_id (pyOrStr d.store "") (pyOrStr d.external_id "") (pyOrStr d.url ""))])
        (res.1, res.2 + 1)

/-! ## Retention sweep (`cleanup_expired`)

The wall clock and `datetime.fromisoformat` are modelled by an explicit
`now : Int` (seconds) and a parser parameter `parseTs : String → Option Int`
(`none` = the library parser raises).  A day is 86400 seconds. -/

/-- The `Z` suffix rewrite done before parsing: `s[:-1] + "+00:00"`. -/
def mungeTs (s : String) : String :=
  if pyEndsWith s "Z" then s.dropRight 1 ++ "+00:00" else s

/-- Whether `cleanup_expired` deletes row `r`: the SQL prefilter keeps rows
with non-null, non-empty `ends_at`; the loop then skips blank-after-strip
values, rewrites a trailing `Z`, and deletes iff the parse succeeds with a
timestamp strictly below the cutoff (parse failure means the row is kept). -/
def expiredSel (parseTs : String → Option Int) (cutoff : Int) (r : DealRow) : Bool :=
  match r.ends_at with
  | none => false
  | some e0 =>
      if e0 = "" then false
      else
        let s := pyStrip e0
        if s = "" then false
        else
          match parseTs (mungeTs s) with
          | some t => decide (t < cutoff)
          | none => false

/-- The `app.py` function `cleanup_expired`: collects the ids of rows whose `ends_at` is
parseable and older than `now - keep_days`, deletes those rows, and returns
how many ids it collected. -/
def cleanup_expired (parseTs : String → Option Int) (now : Int) (keep_days : Int)
    (db : DB) : DB × Nat :=
  let cutoff := now - keep_days * 86400
  let toDelete := ((db : List DealRow).filter (expiredSel parseTs cutoff)).map (·.id)
  ((db : List DealRow).filter (fun r => !(decide (r.id ∈ toDelete))), toDelete.length)

/-! ## Publisher (`post_unposted_to_telegram`)

The SQL query is `WHERE posted=0 AND kind IN ('free_to_keep','free_weekend')`
plus an optional `AND store=?`, ordered by a 0/1 rank on `kind` and then
`created_at ASC` (SQLite text comparison), with a `LIMIT`.

The posting loop, however, evaluates
`kb = InlineKeyboardMarkup(...) if include_button else None`
before its `try:` block, and `include_button` is only ever assigned inside
`tg_go_url` (a different function), so it is not defined in any scope visible
here: the first iteration of the loop raises `NameError` before any send, the
exception propagates out of the function (no row was updated), and no counts
are returned.  `PubResult.exn` carries the table as it stands when the
exception escapes. -/

inductive PubResult where
  | ok (db : DB) (posted : Nat) (queued : Nat)
  | exn (db : DB) (msg : String)
deriving DecidableEq, Repr

/-- The publisher's row filter: `posted=0 AND kind IN
('free_to_keep','free_weekend')`, and `store=?` when a store is given. -/
def rowSelected (storeF : Option String) (r : DealRow) : Bool :=
  !r.posted && (r.kind == "free_to_keep" || r.kind == "free_weekend") &&
    (match storeF with
     | none => true
     | some s => r.store == s)

/-- The rank `CASE kind WHEN 'free_to_keep' THEN 0 ELSE 1 END`. -/
def kindRank (r : DealRow) : Nat :=
  if r.kind = "free_to_keep" then 0 else 1

/-- The `ORDER BY` comparison: kind rank first, then `created_at ASC`. -/
def rowLe (a b : DealRow) : Bool :=
  kindRank a < kindRank b ||
    (kindRank a == kindRank b && !(strLt b.created_at a.created_at))

def insertRow (x : DealRow) : List DealRow → List DealRow
  | [] => [x]
  | y :: ys => if rowLe x y then x :: y :: ys else y :: insertRow x ys

def sortRows : List DealRow → List DealRow
  | [] => []
  | x :: xs => insertRow x (sortRows xs)

/-- The rows the publisher's SELECT returns: filter, order, limit. -/
def selectRows (db : DB) (storeF : Option String) (limit : Nat) : List DealRow :=
  (sortRows ((db : List DealRow).filter (rowSelected storeF))).take limit

def nameErrorMsg : String := "NameError: name include_button is not defined"

/-- The `app.py` coroutine `post_unposted_to_telegram`: returns zero counts when the bot or
chat id is missing; otherwise selects the unposted rows and iterates.  An
empty selection returns `{"posted": 0, "queued": 0}`; a non-empty selection
deterministically raises the `include_button` `NameError` on its first
iteration, before the first send and before any `posted` update. -/
def post_unposted_to_telegram (botOk : Bool) (db : DB) (storeF : Option String)
    (limit : Nat) : PubResult :=
  if !botOk then .ok db 0 0
  else
    match selectRows db storeF limit with
    | [] => .ok db 0 0
    | _ :: _ => .exn db nameErrorMsg

/-! ## Prime normalizer (`fetch_prime_blog`) and the ingestion job

The HTTP layer is a value: `Except.error` for a raised transport exception,
`Except.ok` for a response with a status code and a body.
`requests.raise_for_status` raises exactly for status codes 400–599. -/

structure HttpResp where
  status : Nat
  body : String
deriving DecidableEq, Repr

def raise_for_status (r : HttpResp) : Except String Unit :=
  if 400 ≤ r.status ∧ r.status < 600 then .error ("HTTP " ++ toString r.status)
  else .ok ()

/-- The part before the first double quote: `part.split('"', 1)[0]`. -/
def linkOfPart (p : String) : String := (pySplit p "\"").headD p

/-- The link-extraction loop of `fetch_prime_blog`: split the page on
`href="`, keep parts that start with the blog URL and contain a dash, cut each
at its first quote, deduplicate, and stop once five links are collected. -/
def primeLinksGo : List String → List String → List String
  | [], acc => acc
  | p :: rest, acc =>
      let acc' :=
        if pyStartsWith p "https://primegaming.blog/" && pyHasChar p '-' then
          let link := linkOfPart p
          if link ∈ acc then acc else acc ++ [link]
        else acc
      if 5 ≤ acc'.length then acc' else primeLinksGo rest acc'

def extract_prime_links (html : String) : List String :=
  primeLinksGo (pySplit html "href=\"") []

def mkPrimeCandidate (link : String) : Candidate :=
  { store := some "prime"
    external_id := some link
    kind := some "free_to_keep"
    title := some "Prime Gaming: Free Games with Prime (monthly update)"
    url := some link
    image_url := none
    source := some "primegaming.blog"
    starts_at := none
    ends_at := none }

/-- The `app.py` function `fetch_prime_blog`: GET the blog listing page,
`raise_for_status`, then build one candidate per extracted article link.  A
transport failure or 4xx/5xx status propagates as an exception; the markup
scan itself cannot raise and yields `[]` when nothing matches. -/
def fetch_prime_blog (resp : Except String HttpResp) :
    Except String (List Candidate) :=
  match resp with
  | .error e => .error e
  | .ok r =>
      match raise_for_status r with
      | .error e => .error e
      | .ok _ => .ok ((extract_prime_links r.body).map mkPrimeCandidate)

/-- The structured result of one `job_async` run: either the success
dictionary `{store, fetched, new, tg}` or the `{store, error}` dictionary
produced by the job-boundary `except` clause. -/
inductive JobResult where
  | done (store : String) (fetched : Nat) (newItems : Nat)
      (tgPosted : Nat) (tgQueued : Nat)
  | caught (store : String) (msg : String)
deriving DecidableEq, Repr

/-- The `app.py` coroutine `job_async` for `store="prime"`: fetch → `save_deals` → publish,
with every exception caught at the job boundary and turned into a
`{store, error}` result.  `save_deals` commits before the publisher runs, so
rows saved before a publisher exception stay saved. -/
def job_prime (resp : Except String HttpResp) (now : String) (botOk : Bool)
    (db : DB) : JobResult × DB :=
  match fetch_prime_blog resp with
  | .error e => (.caught "prime" e, db)
  | .ok deals =>
      let res := save_deals now deals db
      match post_unposted_to_telegram botOk res.1 (some "prime") 1 with
      | .ok db2 p q => (.done "prime" deals.length res.2 p q, db2)
      | .exn db2 e => (.caught "prime" e, db2)

/-! ## Epic normalizer (`fetch_epic`, `epic_product_url`)

The JSON catalog elements are modelled structurally; `none` stands for a
missing key or a JSON `null`.  `datetime.fromisoformat` is again the
parameter `parseTs`; `epic_canonicalize` performs a network GET and is the
oracle parameter `canon`. -/

structure EpicOffer where
  startDate : Option String := none
  endDate : Option String := none
deriving DecidableEq, Repr

structure EpicMapping where
  pageType : Option String := none
  pageSlug : Option String := none
deriving DecidableEq, Repr

structure EpicKeyImage where
  url : Option String := none
deriving DecidableEq, Repr

structure EpicTotal where
  discountPrice : Option Int := none
deriving DecidableEq, Repr

structure EpicPriceWrap where
  totalPrice : Option EpicTotal := none
deriving DecidableEq, Repr

structure EpicElement where
  title : Option String := none
  id : Option String := none
  nspace : Option String := none
  promotions : Option (List (Option (List EpicOffer))) := none
  offerMappings : Option (List EpicMapping) := none
  productPageSlug : Option String := none
  urlSlug : Option String := none
  productSlug : Option String := none
  keyImages : Option (List (Option EpicKeyImage)) := none
  price : Option EpicPriceWrap := none
deriving DecidableEq, Repr

/-- Python `s.strip("/")`: drop leading and trailing slashes. -/
def stripSlashes (s : String) : String :=
  let l := s.data.dropWhile (· = '/')
  ⟨(l.reverse.dropWhile (· = '/')).reverse⟩

/-- The `app.py` function `epic_product_url`: prefer an `offerMappings` entry with
`pageType == "productHome"` and a truthy `pageSlug`; fall back to the first
truthy of `productPageSlug`/`urlSlug`/`productSlug` (stripped, with every
`/home` removed); fall back to the generic free-games page. -/
def epic_product_url (e : EpicElement) (locale : String) : String :=
  let loc := (pySplit (if locale = "" then "en-US" else locale) "-").headD ""
  match (e.offerMappings.getD []).find?
      (fun m => m.pageType == some "productHome" && pyOrStr m.pageSlug "" != "") with
  | some m =>
      "https://store.epicgames.com/" ++ loc ++ "/p/" ++
        stripSlashes (pyOrStr m.pageSlug "")
  | none =>
      let slug := stripSlashes
        (pyReplace (pyStrip (pyOrStr e.productPageSlug
            (pyOrStr e.urlSlug
              (pyOrStr e.productSlug "")))) "/home" "")
      if slug ≠ "" then "https://store.epicgames.com/" ++ loc ++ "/p/" ++ slug
      else "https://store.epicgames.com/" ++ loc ++ "/free-games"

/-- The regex `/p/[^/]+$`: some occurrence of `/p/` is followed by a
non-empty, slash-free tail reaching the end of the string. -/
def slugEndMatch : List Char → Bool
  | [] => false
  | '/' :: 'p' :: '/' :: rest =>
      (rest ≠ [] && !rest.contains '/') || slugEndMatch ('p' :: '/' :: rest)
  | _ :: rest => slugEndMatch rest

/-- The local `parse_iso` of `fetch_epic`: falsy input parses to `None`;
otherwise every `Z` is replaced by `+00:00` before parsing. -/
def epicParseIso (parseTs : String → Option Int) (s : Option String) : Option Int :=
  match s with
  | none => none
  | some str => if str = "" then none else parseTs (pyReplace str "Z" "+00:00")

/-- An offer is active when both its dates parse and `sdt <= now <= edt`. -/
def isActiveOffer (parseTs : String → Option Int) (now : Int) (off : EpicOffer) : Bool :=
  match epicParseIso parseTs off.startDate, epicParseIso parseTs off.endDate with
  | some s, some t => decide (s ≤ now) && decide (now ≤ t)
  | _, _ => false

/-- All offers of an element: every `promotionalOffers` list of every block of
`promotions.promotionalOffers`, in order (`None` blocks contribute nothing). -/
def offersOf (e : EpicElement) : List EpicOffer :=
  (e.promotions.getD []).foldl (fun acc b => acc ++ b.getD []) []

/-- First key image that is a dict with a truthy `url`. -/
def firstImg : List (Option EpicKeyImage) → Option String
  | [] => none
  | none :: rest => firstImg rest
  | some k :: rest =>
      match k.url with
      | some u => if u = "" then firstImg rest else some u
      | none => firstImg rest

/-- The body of the element loop of `fetch_epic`: `none` when the element has
no active promotional offer (the `continue`), otherwise the candidate built
from the first active offer.  The source computes the discounted total price
(`price.totalPrice.discountPrice`) into a local but never reads it: `kind` is
the constant `"free_to_keep"`. -/
def epicProcess (parseTs : String → Option Int) (canon : String → String)
    (now : Int) (locale : String) (e : EpicElement) : Option Candidate :=
  match (offersOf e).find? (isActiveOffer parseTs now) with
  | none => none
  | some active =>
      let title := pyOrStr e.title "Epic freebie"
      let url0 := epic_product_url e locale
      let page_url := if slugEndMatch url0.data then canon url0 else url0
      let img := firstImg ((e.keyImages).getD [])
      some
        { store := some "epic"
          external_id := some (pyOrStr e.id (pyOrStr e.nspace page_url))
          kind := some "free_to_keep"
          title := some title
          url := some page_url
          image_url := img
          source := some "epic"
          starts_at := active.startDate
          ends_at := active.endDate }

/-- The `app.py` function `fetch_epic`, from the decoded catalog elements on (the HTTP
GET, `raise_for_status` and JSON decode that precede the loop raise to the
job boundary and are outside this definition). -/
def fetch_epic (parseTs : String → Option Int) (canon : String → String)
    (now : Int) (locale : String) (elements : List EpicElement) : List Candidate :=
  elements.filterMap (epicProcess parseTs canon now locale)

/-! ## ITAD Steam hot deals (`fetch_itad_steam_hot_deals`)

An aggregator item is a dict that may nest its deal under a `"deal"` key or
carry the deal fields itself; a `none` entry in the items list models a
non-dict entry (skipped by the `isinstance` check).  `random.shuffle` is the
oracle parameter `shuffle`. -/

structure ItadPrice where
  amount : Option Int := none
  currency : Option String := none
deriving DecidableEq, Repr

structure ItadDeal where
  cut : Option Int := none
  price : Option ItadPrice := none
  regular : Option ItadPrice := none
  regularPrice : Option ItadPrice := none
  regular_price : Option ItadPrice := none
  url : Option String := none
  title : Option String := none
  name : Option String := none
  expiry : Option String := none
  start : Option String := none
deriving DecidableEq, Repr

structure ItadItem where
  deal : Option ItadDeal := none
  self : ItadDeal := {}
  title : Option String := none
  name : Option String := none
  url : Option String := none
  expiry : Option String := none
  start : Option String := none
deriving DecidableEq, Repr

/-- The `app.py` function `normalize_currency`. -/
def normalize_currency (cur : Option String) : String :=
  let c := pyUpper (pyStrip (cur.getD ""))
  if c = "USD" ∨ c = "$" then "USD"
  else if c = "RUB" ∨ c = "RUR" ∨ c = "₽" then "RUB"
  else ""

/-- Python `a or {}` followed by `.get("amount")` on a price object. -/
def priceAmount (p : Option ItadPrice) : Option Int :=
  match p with
  | some pr => pr.amount
  | none => none

def priceCurrency (p : Option ItadPrice) : Option String :=
  match p with
  | some pr => pr.currency
  | none => none

/-- Dict truthiness chain `deal.get("regular") or deal.get("regularPrice") or
deal.get("regular_price") or {}` (a present dict is truthy). -/
def regularObj (d : ItadDeal) : Option ItadPrice :=
  match d.regular with
  | some p => some p
  | none =>
      match d.regularPrice with
      | some p => some p
      | none => d.regular_price

/-- The candidate `push_candidate` builds (before bucketing). -/
def mkHotCand (it : ItadItem) (d : ItadDeal) (cut : Int) (url : String) : Candidate :=
  { store := some "steam"
    external_id := some ""
    kind := some "hot_deal"
    title := some (pyOrStr it.title (pyOrStr it.name
      (pyOrStr d.title (pyOrStr d.name "Steam deal"))))
    url := some url
    image_url := none
    source := some "itad"
    starts_at := pyOrOpt d.start it.start
    ends_at := pyOrOpt d.expiry it.expiry
    discount_pct := some cut
    price_old := priceAmount (regularObj d)
    price_new := priceAmount d.price
    currency := some (normalize_currency (priceCurrency d.price)) }

/-- Accumulator of the main loop: the two discount buckets and `seen_urls`. -/
structure HotState where
  c7089 : List Candidate
  c90 : List Candidate
  seen : List String
deriving Repr

/-- One iteration of the items loop: skip non-dicts, missing/unparseable
`cut`, `cut < min_cut`, free items (`cut == 100 or price_amount == 0`), falsy
or already-seen URLs; otherwise record the URL and push the candidate into
the bucket its cut falls in (`70..89`, `90+`, or — for cuts between `min_cut`
and `70` — no bucket at all). -/
def hotStep (min_cut : Int) (st : HotState) (oit : Option ItadItem) : HotState :=
  match oit with
  | none => st
  | some it =>
      let d := it.deal.getD it.self
      match d.cut with
      | none => st
      | some cut =>
          if cut < min_cut then st
          else if cut = 100 ∨ priceAmount d.price = some 0 then st
          else
            let url := pyOrStr d.url (pyOrStr it.url "")
            if url = "" ∨ url ∈ st.seen then st
            else
              let st' : HotState := ⟨st.c7089, st.c90, st.seen ++ [url]⟩
              let cand := mkHotCand it d cut url
              if 70 ≤ cut ∧ cut ≤ 89 then ⟨st'.c7089 ++ [cand], st'.c90, st'.seen⟩
              else if 90 ≤ cut then ⟨st'.c7089, st'.c90 ++ [cand], st'.seen⟩
              else st'

/-- The `app.py` function `fetch_itad_steam_hot_deals`: empty without an API key;
otherwise bucket the items, shuffle each bucket, take `mix_70_89` from one
and `mix_90_plus` from the other, top up from the leftovers when short of
`keep`, and cap at `keep`. -/
def fetch_itad_steam_hot_deals (hasKey : Bool)
    (shuffle : List Candidate → List Candidate) (min_cut : Int)
    (items : List (Option ItadItem)) (keep mix_70_89 mix_90_plus : Nat) :
    List Candidate :=
  if !hasKey then []
  else
    let st := items.foldl (hotStep min_cut) ⟨[], [], []⟩
    let s1 := shuffle st.c7089
    let s2 := shuffle st.c90
    let picked := s1.take mix_70_89 ++ s2.take mix_90_plus
    let picked2 :=
      if picked.length < keep then
        picked ++ (s2.drop mix_90_plus ++ s1.drop mix_70_89).take (keep - picked.length)
      else picked
    picked2.take keep

/-- Sanity check of the SHA-256 implementation against the FIPS 180-2 test
vector for "abc". -/
theorem sha256hex_abc :
    sha256hex "abc" =
      "ba7816bf8f01cfea414140de5dae2223b00361a396177a9cb410ff61f20015ad" := by
  rfl

/-! ## Theorems -/

/-- The identity computed by `save_deals` for a candidate `c`. -/
def candId (c : Candidate) : String :=
  deal_id (pyOrStr c.store "") (pyOrStr c.external_id "") (pyOrStr c.url "")

/-- C1: the stable identity of a stored deal is the 24-hex-digit SHA-256 of
`store ++ "|" ++ url`; it is independent of `external_id` (and of every other
candidate field, `deal_id` taking no other argument), so candidates sharing
`(store, url)` share their id, and upserting a candidate whose identity is
already present inserts nothing and reports zero new items. -/
theorem deal_id_stable_identity :
    (∀ store e1 e2 url, deal_id store e1 url = deal_id store e2 url) ∧
    (∀ store e url, deal_id store e url = (sha256hex (store ++ "|" ++ url)).take 24) ∧
    (∀ now c db, db.any (fun r => r.id == candId c) = true →
      save_deals now [c] db = (db, 0)) := by
  refine ⟨fun _ _ _ _ => rfl, fun _ _ _ => rfl, ?_⟩
  intro now c db h
  simp only [candId] at h
  by_cases hu : pyOrStr c.url "" = ""
  · rw [save_deals, if_pos hu]
    rfl
  · rw [save_deals, if_neg hu, if_pos h]
    rfl

/-- Witness for C1 at a concrete store/url, with two different external ids
and a table already holding the identity. -/
theorem deal_id_stable_identity_witness :
    deal_id "gog" "ext-A" "https://gog.com/game/x" =
      deal_id "gog" "ext-B" "https://gog.com/game/x" ∧
    save_deals "2025-01-02T00:00:00+00:00"
        [{ store := some "gog", external_id := some "ext-B", kind := some "free_to_keep",
           title := some "X", url := some "https://gog.com/game/x" }]
        [mkRow "2025-01-01T00:00:00+00:00"
          { store := some "gog", external_id := some "ext-A", kind := some "free_to_keep",
            title := some "X", url := some "https://gog.com/game/x" }
          (candId { store := some "gog", external_id := some "ext-A",
                    kind := some "free_to_keep", title := some "X",
                    url := some "https://gog.com/game/x" })] =
      ([mkRow "2025-01-01T00:00:00+00:00"
          { store := some "gog", external_id := some "ext-A", kind := some "free_to_keep",
            title := some "X", url := some "https://gog.com/game/x" }
          (candId { store := some "gog", external_id := some "ext-A",
                    kind := some "free_to_keep", title := some "X",
                    url := some "https://gog.com/game/x" })], 0) := by
  refine ⟨deal_id_stable_identity.1 "gog" "ext-A" "ext-B" "https://gog.com/game/x", ?_⟩
  exact deal_id_stable_identity.2.2 _ _ _ (by decide)

/-- C2: upserting a candidate with a non-empty URL whose identity is absent
inserts exactly one row and reports one new item; repeating the identical
upsert changes nothing, reports zero new items, and the table holds exactly
one record with that identity. -/
theorem save_deals_upsert_idempotent (now1 now2 : String) (c : Candidate) (db : DB)
    (hurl : pyOrStr c.url "" ≠ "")
    (habs : db.any (fun r => r.id == candId c) = false) :
    save_deals now1 [c] db = (db ++ [mkRow now1 c (candId c)], 1) ∧
    save_deals now2 [c] (db ++ [mkRow now1 c (candId c)]) =
      (db ++ [mkRow now1 c (candId c)], 0) ∧
    ((db ++ [mkRow now1 c (candId c)]).filter (fun r => r.id == candId c)).length = 1 := by
  simp only [candId] at habs ⊢
  have hid : ∀ (now : String), (mkRow now c (deal_id (pyOrStr c.store "")
      (pyOrStr c.external_id "") (pyOrStr c.url ""))).id =
      deal_id (pyOrStr c.store "") (pyOrStr c.external_id "") (pyOrStr c.url "") := by
    intro now
    simp only [mkRow]
  have hany : ∀ (now : String),
      (db ++ [mkRow now c (deal_id (pyOrStr c.store "") (pyOrStr c.external_id "")
        (pyOrStr c.url ""))]).any
        (fun r => r.id == deal_id (pyOrStr c.store "") (pyOrStr c.external_id "")
          (pyOrStr c.url "")) = true := by
    intro now
    apply List.any_eq_true.mpr
    refine ⟨mkRow now c (deal_id (pyOrStr c.store "") (pyOrStr c.external_id "")
      (pyOrStr c.url "")), ?_, ?_⟩
    · exact List.mem_append_right _ (List.mem_singleton.mpr rfl)
    · simp only [mkRow, beq_self_eq_true]
  refine ⟨?_, ?_, ?_⟩
  · rw [save_deals, if_neg hurl, if_neg (by simp [habs])]
    rfl
  · rw [save_deals, if_neg hurl, if_pos (hany now1)]
    rfl
  · have hdb : db.filter (fun r => r.id == deal_id (pyOrStr c.store "")
        (pyOrStr c.external_id "") (pyOrStr c.url "")) = [] := by
      rw [List.filter_eq_nil_iff]
      intro a ha
      have h2 := List.any_eq_false.mp habs a ha
      simpa using h2
    rw [List.filter_append, hdb]
    simp [hid now1]

/-- Witness for C2: a GOG candidate against an empty table. -/
theorem save_deals_upsert_idempotent_witness :
    save_deals "2025-01-01T00:00:00+00:00"
        [{ store := some "gog", external_id := some "g1", kind := some "free_to_keep",
           title := some "X", url := some "https://gog.com/game/x" }] [] =
      ([mkRow "2025-01-01T00:00:00+00:00"
          { store := some "gog", external_id := some "g1", kind := some "free_to_keep",
            title := some "X", url := some "https://gog.com/game/x" }
          (candId { store := some "gog", external_id := some "g1",
                    kind := some "free_to_keep", title := some "X",
                    url := some "https://gog.com/game/x" })], 1) ∧
    save_deals "2025-01-03T00:00:00+00:00"
        [{ store := some "gog", external_id := some "g1", kind := some "free_to_keep",
           title := some "X", url := some "https://gog.com/game/x" }]
        ([] ++ [mkRow "2025-01-01T00:00:00+00:00"
          { store := some "gog", external_id := some "g1", kind := some "free_to_keep",
            title := some "X", url := some "https://gog.com/game/x" }
          (candId { store := some "gog", external_id := some "g1",
                    kind := some "free_to_keep", title := some "X",
                    url := some "https://gog.com/game/x" })]) =
      ([] ++ [mkRow "2025-01-01T00:00:00+00:00"
          { store := some "gog", external_id := some "g1", kind := some "free_to_keep",
            title := some "X", url := some "https://gog.com/game/x" }
          (candId { store := some "gog", external_id := some "g1",
                    kind := some "free_to_keep", title := some "X",
                    url := some "https://gog.com/game/x" })], 0) := by
  have h := save_deals_upsert_idempotent "2025-01-01T00:00:00+00:00"
    "2025-01-03T00:00:00+00:00"
    { store := some "gog", external_id := some "g1", kind := some "free_to_keep",
      title := some "X", url := some "https://gog.com/game/x" } []
    (by decide) (by decide)
  exact ⟨by simpa using h.1, h.2.1⟩

/-- C10: a candidate whose `url` is missing or empty is skipped by
`save_deals`: it inserts no row, adds nothing to the new-items count, and the
rest of the batch is processed exactly as if the candidate were absent. -/
theorem save_deals_skips_empty_url (now : String) (pre post : List Candidate)
    (c : Candidate) (db : DB) (h : pyOrStr c.url "" = "") :
    save_deals now (pre ++ c :: post) db = save_deals now (pre ++ post) db := by
  induction pre generalizing db with
  | nil =>
      simp only [List.nil_append]
      rw [save_deals, if_pos h]
  | cons d ds ih =>
      simp only [List.cons_append]
      rw [save_deals, save_deals]
      split
      · exact ih db
      · split
        · exact ih db
        · simp only [ih]

/-- Witness for C10: a URL-less candidate in front of a valid GOG candidate
contributes nothing, and the valid candidate is still saved. -/
theorem save_deals_skips_empty_url_witness :
    save_deals "2025-01-01T00:00:00+00:00"
        [{ store := some "steam", external_id := some "42", kind := some "free_to_keep",
           title := some "NoUrl", url := none },
         { store := some "gog", external_id := some "g1", kind := some "free_to_keep",
           title := some "X", url := some "https://gog.com/game/x" }] [] =
      save_deals "2025-01-01T00:00:00+00:00"
        [{ store := some "gog", external_id := some "g1", kind := some "free_to_keep",
           title := some "X", url := some "https://gog.com/game/x" }] [] := by
  exact save_deals_skips_empty_url "2025-01-01T00:00:00+00:00" []
    [{ store := some "gog", external_id := some "g1", kind := some "free_to_keep",
       title := some "X", url := some "https://gog.com/game/x" }]
    { store := some "steam", external_id := some "42", kind := some "free_to_keep",
      title := some "NoUrl", url := none } [] (by decide)

lemma expiredSel_none (parseTs : String → Option Int) (cutoff : Int) (r : DealRow)
    (h : r.ends_at = none) : expiredSel parseTs cutoff r = false := by
  simp [expiredSel, h]

lemma expiredSel_parse_none (parseTs : String → Option Int) (cutoff : Int)
    (r : DealRow) (s : String) (h : r.ends_at = some s)
    (hp : parseTs (mungeTs (pyStrip s)) = none) : expiredSel parseTs cutoff r = false := by
  simp only [expiredSel, h]
  split
  · rfl
  · split
    · rfl
    · simp [hp]

lemma expiredSel_parse_some (parseTs : String → Option Int) (cutoff : Int)
    (r : DealRow) (s : String) (t : Int) (h : r.ends_at = some s) (hne : s ≠ "")
    (htr : pyStrip s ≠ "") (hp : parseTs (mungeTs (pyStrip s)) = some t) :
    expiredSel parseTs cutoff r = decide (t < cutoff) := by
  simp only [expiredSel, h, if_neg hne, if_neg htr, hp]

/-- C7: with a 7-day window, `cleanup_expired` deletes a row iff its
`ends_at` is present, non-blank and parses (after the `Z` rewrite) to a time
strictly before `now - 7` days; it returns the number of such rows; rows with
no `ends_at` or an unparseable `ends_at` always survive; in particular a row
ending 8 days ago is deleted and a row ending 6 days ago is retained. -/
theorem cleanup_expired_retention (parseTs : String → Option Int) (now : Int)
    (db : DB) (hnd : (db.map (fun r => r.id)).Nodup) :
    (∀ r ∈ db, (r ∈ (cleanup_expired parseTs now 7 db).1 ↔
        ¬ expiredSel parseTs (now - 7 * 86400) r = true)) ∧
    (cleanup_expired parseTs now 7 db).2 =
      (db.filter (expiredSel parseTs (now - 7 * 86400))).length ∧
    (∀ r ∈ db, r.ends_at = none → r ∈ (cleanup_expired parseTs now 7 db).1) ∧
    (∀ r ∈ db, ∀ s, r.ends_at = some s → parseTs (mungeTs (pyStrip s)) = none →
      r ∈ (cleanup_expired parseTs now 7 db).1) ∧
    (∀ r ∈ db, ∀ s, r.ends_at = some s → s ≠ "" → pyStrip s = s →
      parseTs (mungeTs s) = some (now - 8 * 86400) →
      r ∉ (cleanup_expired parseTs now 7 db).1) ∧
    (∀ r ∈ db, ∀ s, r.ends_at = some s →
      parseTs (mungeTs (pyStrip s)) = some (now - 6 * 86400) →
      r ∈ (cleanup_expired parseTs now 7 db).1) := by
  have key : ∀ r ∈ db,
      (r.id ∈ ((db.filter (expiredSel parseTs (now - 7 * 86400))).map (fun x => x.id)) ↔
        expiredSel parseTs (now - 7 * 86400) r = true) := by
    intro r hr
    constructor
    · intro hmem
      rcases List.mem_map.mp hmem with ⟨a, hafilt, haid⟩
      rcases List.mem_filter.mp hafilt with ⟨hadb, hasel⟩
      have hae : a = r := List.inj_on_of_nodup_map hnd hadb hr haid
      rwa [hae] at hasel
    · intro hsel
      exact List.mem_map.mpr ⟨r, List.mem_filter.mpr ⟨hr, hsel⟩, rfl⟩
  have hmem_iff : ∀ r ∈ db, (r ∈ (cleanup_expired parseTs now 7 db).1 ↔
      ¬ expiredSel parseTs (now - 7 * 86400) r = true) := by
    intro r hr
    simp only [cleanup_expired]
    rw [List.mem_filter]
    constructor
    · rintro ⟨-, hb⟩ hsel
      have hmem := (key r hr).mpr hsel
      simp only [Bool.not_eq_true', decide_eq_false_iff_not] at hb
      exact hb hmem
    · intro hnot
      refine ⟨hr, ?_⟩
      simp only [Bool.not_eq_true', decide_eq_false_iff_not]
      intro hmem
      exact hnot ((key r hr).mp hmem)
  refine ⟨hmem_iff, ?_, ?_, ?_, ?_, ?_⟩
  · simp only [cleanup_expired, List.length_map]
  · intro r hr h0
    exact (hmem_iff r hr).mpr (by simp [expiredSel_none parseTs _ r h0])
  · intro r hr s hs hp
    exact (hmem_iff r hr).mpr (by simp [expiredSel_parse_none parseTs _ r s hs hp])
  · intro r hr s hs hne htr hp
    intro hin
    have hsel : expiredSel parseTs (now - 7 * 86400) r = true := by
      rw [expiredSel_parse_some parseTs (now - 7 * 86400) r s (now - 8 * 86400) hs hne
        (by rwa [htr]) (by rwa [htr])]
      exact decide_eq_true (by omega)
    exact ((hmem_iff r hr).mp hin) hsel
  · intro r hr s hs hp
    refine (hmem_iff r hr).mpr ?_
    by_cases hne : s = ""
    · simp [expiredSel, hs, hne]
    · by_cases htr : pyStrip s = ""
      · simp only [expiredSel, hs, if_neg hne]
        simp [htr]
      · rw [expiredSel_parse_some parseTs (now - 7 * 86400) r s (now - 6 * 86400) hs hne htr hp]
        simp only [decide_eq_true_eq]
        omega

/-- A deterministic parser for witness scenarios. -/
def witnessParse (now : Int) (s : String) : Option Int :=
  if s = "E8+00:00" then some (now - 8 * 86400)
  else if s = "E6+00:00" then some (now - 6 * 86400)
  else none

/-- A generic `deals` row for witness scenarios. -/
def sampleRow (i : String) (p : Bool) (ends : Option String) : DealRow :=
  { id := i, store := "steam", external_id := "", kind := "free_to_keep",
    title := "T", url := "https://example.com/" ++ i, image_url := none,
    source := "itad", starts_at := none, ends_at := ends, discount_pct := none,
    price_old := none, price_new := none, currency := none, posted := p,
    created_at := "2025-01-01T00:00:00+00:00" }

/-- Witness for C7: among a row ending 8 days ago, a row ending 6 days ago,
a row with no deadline and a row with an unparseable deadline, the sweep
deletes exactly the first. -/
theorem cleanup_expired_retention_witness :
    sampleRow "r8" false (some "E8Z") ∉
      (cleanup_expired (witnessParse 1000000000) 1000000000 7
        [sampleRow "r8" false (some "E8Z"), sampleRow "r6" false (some "E6Z"),
         sampleRow "rn" false none, sampleRow "rb" false (some "BAD")]).1 ∧
    sampleRow "r6" false (some "E6Z") ∈
      (cleanup_expired (witnessParse 1000000000) 1000000000 7
        [sampleRow "r8" false (some "E8Z"), sampleRow "r6" false (some "E6Z"),
         sampleRow "rn" false none, sampleRow "rb" false (some "BAD")]).1 ∧
    sampleRow "rn" false none ∈
      (cleanup_expired (witnessParse 1000000000) 1000000000 7
        [sampleRow "r8" false (some "E8Z"), sampleRow "r6" false (some "E6Z"),
         sampleRow "rn" false none, sampleRow "rb" false (some "BAD")]).1 ∧
    sampleRow "rb" false (some "BAD") ∈
      (cleanup_expired (witnessParse 1000000000) 1000000000 7
        [sampleRow "r8" false (some "E8Z"), sampleRow "r6" false (some "E6Z"),
         sampleRow "rn" false none, sampleRow "rb" false (some "BAD")]).1 := by
  have H := cleanup_expired_retention (witnessParse 1000000000) 1000000000
    [sampleRow "r8" false (some "E8Z"), sampleRow "r6" false (some "E6Z"),
     sampleRow "rn" false none, sampleRow "rb" false (some "BAD")] (by decide)
  refine ⟨?_, ?_, ?_, ?_⟩
  · exact H.2.2.2.2.1 (sampleRow "r8" false (some "E8Z")) (by decide) "E8Z" rfl
      (by decide) (by decide) (by decide)
  · exact H.2.2.2.2.2 (sampleRow "r6" false (some "E6Z")) (by decide) "E6Z" rfl (by decide)
  · exact H.2.2.1 (sampleRow "rn" false none) (by decide) rfl
  · exact H.2.2.2.1 (sampleRow "rb" false (some "BAD")) (by decide) "BAD" rfl (by decide)

/-- C3 (code bug): the Publisher's SELECT does pick exactly the unposted
free rows, and invoking it with every matching record already posted is a
no-op — but against a single unposted `free_to_keep` record it raises
`NameError` (`include_button` is assigned only inside `tg_go_url`, yet read
at the `kb = ...` line, which sits before the `try:` block), so no record is
ever sent and no `posted` flag ever flips 0→1: the update statement and the
posting machinery behind it are unreachable. -/
theorem publisher_posted_flag_name_error :
    selectRows [sampleRow "a1" false none] none 10 = [sampleRow "a1" false none] ∧
    post_unposted_to_telegram true [sampleRow "a1" false none] none 10 =
      .exn [sampleRow "a1" false none] nameErrorMsg ∧
    post_unposted_to_telegram true [sampleRow "a2" true none] none 10 =
      .ok [sampleRow "a2" true none] 0 0 := by
  refine ⟨by decide, by decide, by decide⟩

/-- C4 (code bug): with a batch of two unposted records queued, the code
never reaches a delivery attempt, so the stop-on-first-delivery-failure path
and the `{"posted", "queued"}` counts are unreachable: the run raises the
`include_button` `NameError` on the first row (before any send), returns no
counts, and both rows keep `posted = 0` untouched. -/
theorem publisher_stop_on_failure_name_error :
    post_unposted_to_telegram true
        [sampleRow "b1" false none, sampleRow "b2" false none] none 10 =
      .exn [sampleRow "b1" false none, sampleRow "b2" false none] nameErrorMsg ∧
    ([sampleRow "b1" false none, sampleRow "b2" false none].all
      (fun r => !r.posted)) = true := by
  refine ⟨by decide, by decide⟩

/-- C9: an Epic catalog element contributes a candidate only when some
promotional window is currently active: if no offer of any element satisfies
`startDate <= now <= endDate` (offers with a missing or unparseable date
never do), `fetch_epic` produces zero candidates. -/
theorem fetch_epic_requires_active_window (parseTs : String → Option Int)
    (canon : String → String) (now : Int) (locale : String)
    (elements : List EpicElement)
    (h : ∀ e ∈ elements, ∀ off ∈ offersOf e, isActiveOffer parseTs now off = false) :
    fetch_epic parseTs canon now locale elements = [] := by
  apply List.filterMap_eq_nil_iff.mpr
  intro e he
  have hf : (offersOf e).find? (isActiveOffer parseTs now) = none :=
    List.find?_eq_none.mpr (fun off hoff => by simp [h e he off hoff])
  simp only [epicProcess, hf]

/-- The timestamp parser used in the Epic witness scenarios. -/
def epicParse (s : String) : Option Int :=
  if s = "2030-01-01T00:00:00+00:00" then some 1893456000
  else if s = "2030-01-08T00:00:00+00:00" then some 1894060800
  else none

/-- An element whose only promotional window lies in the future. -/
def epicFutureElem : EpicElement :=
  { title := some "Future Game"
    id := some "f1"
    promotions := some [some [{ startDate := some "2030-01-01T00:00:00Z",
                                endDate := some "2030-01-08T00:00:00Z" }]] }

/-- Witness for C9: the future-window element yields zero candidates at a
"now" before its start. -/
theorem fetch_epic_requires_active_window_witness :
    fetch_epic epicParse (fun u => u) 1700000000 "en-US" [epicFutureElem] = [] :=
  fetch_epic_requires_active_window epicParse (fun u => u) 1700000000 "en-US"
    [epicFutureElem] (by decide)

/-- An element with an active window and a non-zero discounted total price. -/
def epicPaidElem : EpicElement :=
  { title := some "Weekend Game"
    id := some "w1"
    promotions := some [some [{ startDate := some "2030-01-01T00:00:00Z",
                                endDate := some "2030-01-08T00:00:00Z" }]]
    price := some { totalPrice := some { discountPrice := some 1999 } } }

/-- Is a normalizer result a non-exceptional value? -/
def exceptIsOk (x : Except String (List Candidate)) : Bool :=
  match x with
  | .ok _ => true
  | .error _ => false

/-- Counterexample for C5: an element whose discounted total price is 1999
(not 0) and whose window is active still comes out as `free_to_keep`, not
`free_weekend` — `fetch_epic` computes the discounted price but never uses
it, so `kind` never depends on it. -/
theorem fetch_epic_kind_ignores_price_counterexample :
    (fetch_epic epicParse (fun u => u) 1893500000 "en-US" [epicPaidElem]).map
        (fun c => c.kind) = [some "free_to_keep"] ∧
    (((epicPaidElem.price.getD {}).totalPrice.getD {}).discountPrice = some 1999) ∧
    decide ((1999 : Int) = 0) = false := by
  refine ⟨by decide, rfl, by decide⟩

/-- C5 as amended: every candidate `fetch_epic` produces has kind
`free_to_keep`, whatever the discounted total price is. -/
theorem fetch_epic_kind_always_free_to_keep (parseTs : String → Option Int)
    (canon : String → String) (now : Int) (locale : String)
    (elements : List EpicElement) :
    ∀ c ∈ fetch_epic parseTs canon now locale elements,
      c.kind = some "free_to_keep" := by
  intro c hc
  rcases List.mem_filterMap.mp hc with ⟨e, he, hpe⟩
  simp only [epicProcess] at hpe
  rcases hfind : (offersOf e).find? (isActiveOffer parseTs now) with _ | active
  · rw [hfind] at hpe
    cases hpe
  · rw [hfind] at hpe
    rw [Option.some_inj] at hpe
    rw [← hpe]

/-- Witness for the amended C5: the candidate produced for the 1999-priced
element, extracted concretely. -/
theorem fetch_epic_kind_always_free_to_keep_witness :
    Candidate.kind
      { store := some "epic", external_id := some "w1", kind := some "free_to_keep",
        title := some "Weekend Game",
        url := some "https://store.epicgames.com/en/free-games", image_url := none,
        source := some "epic", starts_at := some "2030-01-01T00:00:00Z",
        ends_at := some "2030-01-08T00:00:00Z" } = some "free_to_keep" :=
  fetch_epic_kind_always_free_to_keep epicParse (fun u => u) 1893500000 "en-US"
    [epicPaidElem]
    { store := some "epic", external_id := some "w1", kind := some "free_to_keep",
      title := some "Weekend Game",
      url := some "https://store.epicgames.com/en/free-games", image_url := none,
      source := some "epic", starts_at := some "2030-01-01T00:00:00Z",
      ends_at := some "2030-01-08T00:00:00Z" } (by decide)

/-- Counterexample for C6: on an HTTP 500 the Prime normalizer does not
return an empty list — `raise_for_status` raises and the exception leaves the
normalizer. -/
theorem fetch_prime_blog_http_error_counterexample :
    fetch_prime_blog (Except.ok ⟨500, ""⟩) = Except.error "HTTP 500" ∧
    exceptIsOk (fetch_prime_blog (Except.ok ⟨500, ""⟩)) = false := by
  exact ⟨rfl, rfl⟩

/-- C6 as amended: a transport failure or HTTP error status raises out of
`fetch_prime_blog`, and `job_async` catches it at the job boundary, turning
it into a structured `{store, error}` result with the store unchanged — the
run is recoverable, not fatal; when the response is healthy the normalizer
cannot raise on markup, and a page with no matching links degrades to the
empty candidate list. -/
theorem prime_failures_recoverable (resp : Except String HttpResp)
    (now : String) (botOk : Bool) (db : DB) :
    (∀ e, fetch_prime_blog resp = .error e →
      job_prime resp now botOk db = (.caught "prime" e, db)) ∧
    (∀ r, resp = .ok r → raise_for_status r = .ok () →
      fetch_prime_blog resp = .ok ((extract_prime_links r.body).map mkPrimeCandidate)) ∧
    (∀ r, resp = .ok r → raise_for_status r = .ok () → extract_prime_links r.body = [] →
      fetch_prime_blog resp = .ok []) := by
  refine ⟨?_, ?_, ?_⟩
  · intro e he
    simp only [job_prime, he]
  · intro r hr hs
    subst hr
    simp only [fetch_prime_blog, hs]
  · intro r hr hs hx
    subst hr
    simp only [fetch_prime_blog, hs, hx, List.map_nil]

/-- Witness for C6: a raised connection error becomes a `{store, error}`
job result with the table untouched, and a links-free page yields `ok []`. -/
theorem prime_failures_recoverable_witness :
    job_prime (Except.error "ConnectionError") "2025-01-01T00:00:00+00:00" true [] =
      (JobResult.caught "prime" "ConnectionError", []) ∧
    fetch_prime_blog (Except.ok ⟨200, "<html><body>plain page</body></html>"⟩) =
      Except.ok [] := by
  constructor
  · exact (prime_failures_recoverable (Except.error "ConnectionError")
      "2025-01-01T00:00:00+00:00" true []).1 "ConnectionError" rfl
  · exact (prime_failures_recoverable
        (Except.ok ⟨200, "<html><body>plain page</body></html>"⟩)
        "2025-01-01T00:00:00+00:00" true []).2.2
      ⟨200, "<html><body>plain page</body></html>"⟩ rfl rfl (by decide)

/-- The property every hot-deal candidate must satisfy: hot-deal kind, a
recorded discount at or above the threshold (and never below 70, the lower
bucket bound), never the 100% / zero-price free case. -/
def hotOk (min_cut : Int) (c : Candidate) : Prop :=
  c.kind = some "hot_deal" ∧
    ∃ n : Int, c.discount_pct = some n ∧ min_cut ≤ n ∧ 70 ≤ n ∧ n ≠ 100 ∧
      c.price_new ≠ some 0

lemma hotStep_pres (min_cut : Int) (st : HotState) (oit : Option ItadItem)
    (h1 : ∀ c ∈ st.c7089, hotOk min_cut c) (h2 : ∀ c ∈ st.c90, hotOk min_cut c) :
    (∀ c ∈ (hotStep min_cut st oit).c7089, hotOk min_cut c) ∧
    (∀ c ∈ (hotStep min_cut st oit).c90, hotOk min_cut c) := by
  cases oit with
  | none => exact ⟨h1, h2⟩
  | some it =>
    simp only [hotStep]
    split
    · exact ⟨h1, h2⟩
    · next cut hcut =>
      split
      · exact ⟨h1, h2⟩
      · next hlt =>
        split
        · exact ⟨h1, h2⟩
        · next hfree =>
          split
          · exact ⟨h1, h2⟩
          · next hurl =>
            rw [not_or] at hfree
            split
            · next hb1 =>
              refine ⟨?_, h2⟩
              intro c hc
              rcases List.mem_append.mp hc with h | h
              · exact h1 c h
              · rw [List.mem_singleton] at h
                subst h
                exact ⟨rfl, cut, rfl, by omega, hb1.1, hfree.1, hfree.2⟩
            · split
              · next hb2 =>
                refine ⟨h1, ?_⟩
                intro c hc
                rcases List.mem_append.mp hc with h | h
                · exact h2 c h
                · rw [List.mem_singleton] at h
                  subst h
                  exact ⟨rfl, cut, rfl, by omega, by omega, by omega, hfree.2⟩
              · exact ⟨h1, h2⟩

lemma hotFold_ok (min_cut : Int) (items : List (Option ItadItem)) :
    ∀ st : HotState, (∀ c ∈ st.c7089, hotOk min_cut c) →
      (∀ c ∈ st.c90, hotOk min_cut c) →
      (∀ c ∈ (items.foldl (hotStep min_cut) st).c7089, hotOk min_cut c) ∧
      (∀ c ∈ (items.foldl (hotStep min_cut) st).c90, hotOk min_cut c) := by
  induction items with
  | nil => exact fun st h1 h2 => ⟨h1, h2⟩
  | cons it rest ih =>
      intro st h1 h2
      rw [List.foldl_cons]
      have hp := hotStep_pres min_cut st it h1 h2
      exact ih (hotStep min_cut st it) hp.1 hp.2

/-- C8: every candidate the hot-deal fetch path emits has kind `hot_deal`
and a discount at least the configured threshold (and at least 70), and the
path excludes every 100%-discount or zero-price item — such an item never
appears in the hot-deal result set, so under a 70% threshold a cut-65 item
yields nothing. (`random.shuffle` is any membership-preserving function.) -/
theorem hot_deals_threshold_and_exclusions (hasKey : Bool)
    (shuffle : List Candidate → List Candidate) (min_cut : Int)
    (items : List (Option ItadItem)) (keep m1 m2 : Nat)
    (hsh : ∀ l c, c ∈ shuffle l → c ∈ l) :
    ∀ c ∈ fetch_itad_steam_hot_deals hasKey shuffle min_cut items keep m1 m2,
      c.kind = some "hot_deal" ∧
      ∃ n : Int, c.discount_pct = some n ∧ min_cut ≤ n ∧ 70 ≤ n ∧ n ≠ 100 ∧
        c.price_new ≠ some 0 := by
  intro c hc
  cases hasKey with
  | false => simp [fetch_itad_steam_hot_deals] at hc
  | true =>
    simp only [fetch_itad_steam_hot_deals, Bool.not_true, Bool.false_eq_true,
      if_false] at hc
    have hfold := hotFold_ok min_cut items ⟨[], [], []⟩
      (fun c h => absurd h (List.not_mem_nil c))
      (fun c h => absurd h (List.not_mem_nil c))
    have hs1 : ∀ x ∈ shuffle (items.foldl (hotStep min_cut) ⟨[], [], []⟩).c7089,
        hotOk min_cut x := fun x hx => hfold.1 x (hsh _ x hx)
    have hs2 : ∀ x ∈ shuffle (items.foldl (hotStep min_cut) ⟨[], [], []⟩).c90,
        hotOk min_cut x := fun x hx => hfold.2 x (hsh _ x hx)
    have h2 := List.take_subset _ _ hc
    have hmem : c ∈ shuffle (items.foldl (hotStep min_cut) ⟨[], [], []⟩).c7089 ∨
        c ∈ shuffle (items.foldl (hotStep min_cut) ⟨[], [], []⟩).c90 := by
      split at h2
      · rcases List.mem_append.mp h2 with h | h
        · rcases List.mem_append.mp h with h3 | h3
          · exact Or.inl (List.take_subset _ _ h3)
          · exact Or.inr (List.take_subset _ _ h3)
        · have h4 := List.take_subset _ _ h
          rcases List.mem_append.mp h4 with h3 | h3
          · exact Or.inr (List.drop_subset _ _ h3)
          · exact Or.inl (List.drop_subset _ _ h3)
      · rcases List.mem_append.mp h2 with h3 | h3
        · exact Or.inl (List.take_subset _ _ h3)
        · exact Or.inr (List.take_subset _ _ h3)
    rcases hmem with h | h
    · exact hs1 c h
    · exact hs2 c h

/-- The aggregator items of the C8 witness scenario: a 100%-discount item, a
65%-discount item and an 80%-discount item. -/
def hotWitnessDeal (c a : Int) (u t : String) : ItadDeal :=
  { cut := some c, price := some { amount := some a, currency := some "USD" },
    url := some u, title := some t }

def hotWitnessItems : List (Option ItadItem) :=
  [some { deal := some (hotWitnessDeal 100 0 "https://store.steampowered.com/app/1" "Game 1") },
   some { deal := some (hotWitnessDeal 65 699 "https://store.steampowered.com/app/2" "Game 2") },
   some { deal := some (hotWitnessDeal 80 599 "https://store.steampowered.com/app/3" "Game 3") }]

/-- Witness for C8: under a 70% threshold only the 80%-discount item
survives, and it satisfies every property of the theorem. -/
theorem hot_deals_threshold_and_exclusions_witness :
    Candidate.kind
        { store := some "steam", external_id := some "", kind := some "hot_deal",
          title := some "Game 3", url := some "https://store.steampowered.com/app/3",
          image_url := none, source := some "itad", starts_at := none,
          ends_at := none, discount_pct := some 80, price_old := none,
          price_new := some 599, currency := some "USD" } = some "hot_deal" ∧
    ∃ n : Int,
      Candidate.discount_pct
        { store := some "steam", external_id := some "", kind := some "hot_deal",
          title := some "Game 3", url := some "https://store.steampowered.com/app/3",
          image_url := none, source := some "itad", starts_at := none,
          ends_at := none, discount_pct := some 80, price_old := none,
          price_new := some 599, currency := some "USD" } = some n ∧
      (70 : Int) ≤ n ∧ (70 : Int) ≤ n ∧ n ≠ 100 ∧
      Candidate.price_new
        { store := some "steam", external_id := some "", kind := some "hot_deal",
          title := some "Game 3", url := some "https://store.steampowered.com/app/3",
          image_url := none, source := some "itad", starts_at := none,
          ends_at := none, discount_pct := some 80, price_old := none,
          price_new := some 599, currency := some "USD" } ≠ some 0 :=
  hot_deals_threshold_and_exclusions true (fun l => l) 70 hotWitnessItems 20 14 6
    (fun _ _ h => h)
    { store := some "steam", external_id := some "", kind := some "hot_deal",
      title := some "Game 3", url := some "https://store.steampowered.com/app/3",
      image_url := none, source := some "itad", starts_at := none,
      ends_at := none, discount_pct := some 80, price_old := none,
      price_new := some 599, currency := some "USD" } (by decide)

end FreeRG
